import Mathlib

/-!
Shallow embedding of the code-personality-theme extension (src/src/extension.ts).

Timestamps are modelled as `Int` milliseconds (JavaScript `Date.now()` values and
their differences). Configuration numbers are `Int` as well. The host environment
(open text documents, the diagnostics registry, the current workbench theme and the
outcome of `workbench.update`) is passed in explicitly, since the core reads it
afresh on every call.
-/

/-- Working mode inferred by the extension: the string union `"calm" | "focus" | "panic"`. -/
inductive Mode where
  | calm
  | focus
  | panic
  deriving DecidableEq, Repr

/-- Configuration snapshot as produced by `getConfig`, one field per setting. -/
structure Config where
  calmTheme : String
  focusTheme : String
  panicTheme : String
  panicErrorThreshold : Int
  focusTypingBurstThreshold : Int
  idleSecondsForCalm : Int
  cooldownSeconds : Int
  deriving DecidableEq, Repr

/-- Default configuration values from `getConfig` in the source. -/
def defaultConfig : Config :=
  { calmTheme := "Personality: Calm"
    focusTheme := "Personality: Focus"
    panicTheme := "Personality: Panic"
    panicErrorThreshold := 5
    focusTypingBurstThreshold := 12
    idleSecondsForCalm := 20
    cooldownSeconds := 15 }

/-- Fields of the `PersonalityState` class. -/
structure PersonalityState where
  lastEditAt : Int
  editTimestamps : List Int
  lastAppliedAt : Int
  lastMode : Option Mode
  deriving DecidableEq, Repr

/-- State at construction time `t0`: `lastEditAt = Date.now()`, an empty edit window,
`lastAppliedAt = 0` and `lastMode = null`. -/
def initState (t0 : Int) : PersonalityState :=
  { lastEditAt := t0, editTimestamps := [], lastAppliedAt := 0, lastMode := none }

/-- Method `onEdit`: record an edit at time `now`; set `lastEditAt`, push `now` onto the
window, then keep only entries `t` with `t ≥ now - 10000`. -/
def onEdit (s : PersonalityState) (now : Int) : PersonalityState :=
  let pushed := s.editTimestamps ++ [now]
  let cutoff := now - 10000
  { s with lastEditAt := now, editTimestamps := pushed.filter (fun t => cutoff ≤ t) }

/-- Fold a chronological sequence of edit events into the state, one `onEdit` per event. -/
def runEdits (s : PersonalityState) (times : List Int) : PersonalityState :=
  times.foldl onEdit s

/-- Host resource identifiers; opaque to the core. -/
abbrev Uri := Nat

/-- Diagnostics are opaque to the core; only their count is used. -/
abbrev Diagnostic := Nat

/-- Host diagnostics environment: the uris of the open text documents, and the full
diagnostics registry as returned by `languages.getDiagnostics()`, a list of
`(uri, diagnostics)` pairs. -/
structure DiagEnv where
  textDocuments : List Uri
  diagRegistry : List (Uri × List Diagnostic)
  deriving DecidableEq, Repr

/-- Overload `languages.getDiagnostics(uri)`: the diagnostics recorded for one uri,
empty when the registry has no entry for it. -/
def getDiagnostics (env : DiagEnv) (uri : Uri) : List Diagnostic :=
  match env.diagRegistry.find? (fun p => p.1 == uri) with
  | some p => p.2
  | none => []

/-- Function `countAllDiagnostics` from the source: the first loop adds the diagnostics
of every open document looked up by uri, the second loop adds the diagnostics of every
entry of the full registry. -/
def countAllDiagnostics (env : DiagEnv) : Nat :=
  let fromOpenDocs := (env.textDocuments.map (fun uri => (getDiagnostics env uri).length)).sum
  let fromRegistry := (env.diagRegistry.map (fun p => p.2.length)).sum
  fromOpenDocs + fromRegistry

/-- Diagnostics total following the spec wording for `currentDiagnosticsCount`: the sum
of all diagnostics across all currently known documents, each diagnostic counted exactly
once. Stated over the registry, which holds every document with diagnostics. -/
def specTotalDiagnostics (env : DiagEnv) : Nat :=
  (env.diagRegistry.map (fun p => p.2.length)).sum

/-- Method `computeMode`: panic on a high diagnostics total, else focus on a typing
burst, else calm when idle long enough, else focus. -/
def computeMode (s : PersonalityState) (cfg : Config) (env : DiagEnv) (now : Int) : Mode :=
  let totalDiagnostics : Int := countAllDiagnostics env
  if cfg.panicErrorThreshold ≤ totalDiagnostics then
    Mode.panic
  else
    let editsInWindow : Int := s.editTimestamps.length
    if cfg.focusTypingBurstThreshold ≤ editsInWindow then
      Mode.focus
    else
      let idleMs := now - s.lastEditAt
      if cfg.idleSecondsForCalm * 1000 ≤ idleMs then
        Mode.calm
      else
        Mode.focus

/-- Method `isPanicRecovery`: the previously applied mode was panic and the new one is not. -/
def isPanicRecovery (s : PersonalityState) (newMode : Mode) : Bool :=
  s.lastMode = some Mode.panic ∧ newMode ≠ Mode.panic

/-- Method `canApply`: force wins; a repeat of the applied mode is refused; leaving panic
for calm bypasses the cooldown; otherwise the cooldown clock decides. -/
def canApply (s : PersonalityState) (cfg : Config) (now : Int) (mode : Mode)
    (force : Bool) : Bool :=
  if force then
    true
  else if s.lastMode = some mode then
    false
  else if s.lastMode = some Mode.panic ∧ mode = Mode.calm then
    true
  else if now - s.lastAppliedAt < cfg.cooldownSeconds * 1000 then
    false
  else
    true

/-- Method `markApplied`: record the apply time and the applied mode. -/
def markApplied (s : PersonalityState) (mode : Mode) (now : Int) : PersonalityState :=
  { s with lastAppliedAt := now, lastMode := some mode }

/-- Theme identifier chosen in `applyMode` for a mode. -/
def themeForMode (cfg : Config) (mode : Mode) : String :=
  if mode = Mode.calm then cfg.calmTheme
  else if mode = Mode.panic then cfg.panicTheme
  else cfg.focusTheme

/-- Host side of `applyMode`: the current `workbench.colorTheme` value, and whether the
external `workbench.update` call succeeds when it is attempted. -/
structure ApplyEnv where
  currentTheme : String
  updateOk : Bool
  deriving DecidableEq, Repr

/-- Result of one `applyMode` call: the state afterwards, whether the external theme
update was actually performed and succeeded, and whether it was attempted and failed.
On failure the rejection propagates out of `applyMode` before `markApplied` runs, so
the state component is the unchanged input state. -/
structure ApplyOutcome where
  state : PersonalityState
  updated : Bool
  failed : Bool
  deriving DecidableEq, Repr

/-- Function `applyMode`: return early unless `canApply`; look up the theme for the mode;
perform the external update only when the current theme differs; then `markApplied`. -/
def applyMode (mode : Mode) (s : PersonalityState) (force : Bool) (cfg : Config)
    (env : ApplyEnv) (now : Int) : ApplyOutcome :=
  if canApply s cfg now mode force = false then
    { state := s, updated := false, failed := false }
  else
    let theme := themeForMode cfg mode
    if env.currentTheme ≠ theme then
      if env.updateOk then
        { state := markApplied s mode now, updated := true, failed := false }
      else
        { state := s, updated := false, failed := true }
    else
      { state := markApplied s mode now, updated := false, failed := false }

/-- Window invariant named by the spec: at a read at time `now`, every entry of the edit
window is at least `now - 10000` milliseconds. -/
def windowInvariant (s : PersonalityState) (now : Int) : Prop :=
  ∀ t ∈ s.editTimestamps, now - 10000 ≤ t

/-- Environment with five diagnostics on one document that is not open, used as a
concrete panic-triggering input. -/
def fiveDiagEnv : DiagEnv := { textDocuments := [], diagRegistry := [(0, [0, 1, 2, 3, 4])] }

/-- Claim C2: whenever the total diagnostics count reaches `panicErrorThreshold`,
`computeMode` returns panic, for every state, configuration and time — the diagnostics
check is evaluated first and wins over typing activity and idleness. -/
theorem computeMode_panic_priority (s : PersonalityState) (cfg : Config) (env : DiagEnv)
    (now : Int) (h : cfg.panicErrorThreshold ≤ (countAllDiagnostics env : Int)) :
    computeMode s cfg env now = Mode.panic := by
  simp [computeMode, h]

/-- Witness for C2: with the default threshold 5 and five diagnostics in the registry,
`computeMode` returns panic. -/
theorem computeMode_panic_priority_witness :
    defaultConfig.panicErrorThreshold ≤ (countAllDiagnostics fiveDiagEnv : Int) ∧
    computeMode (initState 0) defaultConfig fiveDiagEnv 0 = Mode.panic :=
  ⟨by decide, computeMode_panic_priority (initState 0) defaultConfig fiveDiagEnv 0 (by decide)⟩

/-- Claim C8: when the diagnostics total is below `panicErrorThreshold` and the edit
window holds at least `focusTypingBurstThreshold` entries, `computeMode` returns focus
for every state and time — in particular even when the idle duration also reaches
`idleSecondsForCalm * 1000`, since the burst check precedes the idle check. -/
theorem computeMode_burst_precedes_idle (s : PersonalityState) (cfg : Config)
    (env : DiagEnv) (now : Int)
    (hd : (countAllDiagnostics env : Int) < cfg.panicErrorThreshold)
    (hb : cfg.focusTypingBurstThreshold ≤ (s.editTimestamps.length : Int)) :
    computeMode s cfg env now = Mode.focus := by
  simp [computeMode, not_le.mpr hd, hb]

/-- State holding a twelve-edit burst recorded around time 9000, far in the past of a
read at 100000, so that the idle duration also exceeds the default calm threshold. -/
def burstState : PersonalityState :=
  { lastEditAt := 9000
    editTimestamps := [1, 2, 3, 4, 5, 6, 7, 8, 9, 10, 11, 9000]
    lastAppliedAt := 0
    lastMode := none }

/-- Witness for C8: no diagnostics, a twelve-entry window and a 91-second idle duration
under the default configuration still give focus. -/
theorem computeMode_burst_precedes_idle_witness :
    (countAllDiagnostics { textDocuments := [], diagRegistry := [] } : Int) <
      defaultConfig.panicErrorThreshold ∧
    defaultConfig.focusTypingBurstThreshold ≤ (burstState.editTimestamps.length : Int) ∧
    defaultConfig.idleSecondsForCalm * 1000 ≤ 100000 - burstState.lastEditAt ∧
    computeMode burstState defaultConfig { textDocuments := [], diagRegistry := [] } 100000 =
      Mode.focus :=
  ⟨by decide, by decide, by decide,
    computeMode_burst_precedes_idle burstState defaultConfig
      { textDocuments := [], diagRegistry := [] } 100000 (by decide) (by decide)⟩

/-- Claim C10: with `focusTypingBurstThreshold = 0`, every state whose diagnostics total
is below `panicErrorThreshold` yields focus regardless of idle duration: the window
length is a natural number, so it always meets a zero threshold before the idle check
is reached, and calm is unreachable. -/
theorem computeMode_zero_burst_threshold (s : PersonalityState) (cfg : Config)
    (env : DiagEnv) (now : Int)
    (hthr : cfg.focusTypingBurstThreshold = 0)
    (hd : (countAllDiagnostics env : Int) < cfg.panicErrorThreshold) :
    computeMode s cfg env now = Mode.focus := by
  have hb : cfg.focusTypingBurstThreshold ≤ (s.editTimestamps.length : Int) := by
    rw [hthr]
    exact Int.natCast_nonneg _
  simp [computeMode, not_le.mpr hd, hb]

/-- Configuration equal to the default one except that the focus burst threshold is 0. -/
def zeroBurstConfig : Config := { defaultConfig with focusTypingBurstThreshold := 0 }

/-- Witness for C10: with a zero burst threshold, an empty edit window and a 100-second
idle duration, the computed mode is still focus, not calm. -/
theorem computeMode_zero_burst_threshold_witness :
    zeroBurstConfig.focusTypingBurstThreshold = 0 ∧
    (countAllDiagnostics { textDocuments := [], diagRegistry := [] } : Int) <
      zeroBurstConfig.panicErrorThreshold ∧
    computeMode (initState 0) zeroBurstConfig { textDocuments := [], diagRegistry := [] }
      100000 = Mode.focus :=
  ⟨by decide, by decide,
    computeMode_zero_burst_threshold (initState 0) zeroBurstConfig
      { textDocuments := [], diagRegistry := [] } 100000 (by decide) (by decide)⟩

/-- State whose last applied mode is panic, applied at time 0. -/
def panicAppliedState : PersonalityState :=
  { lastEditAt := 0, editTimestamps := [], lastAppliedAt := 0, lastMode := some Mode.panic }

/-- Claim C5: when the last applied mode is panic, a non-forced calm candidate passes
`canApply` no matter how recently the last apply happened, while a non-forced focus
candidate gets no such bypass: it passes exactly when the cooldown has elapsed. -/
theorem canApply_panic_calm_bypass (s : PersonalityState) (cfg : Config) (now : Int)
    (h : s.lastMode = some Mode.panic) :
    canApply s cfg now Mode.calm false = true ∧
    (canApply s cfg now Mode.focus false = true ↔
      cfg.cooldownSeconds * 1000 ≤ now - s.lastAppliedAt) := by
  constructor
  · simp [canApply, h]
  · rcases lt_or_le (now - s.lastAppliedAt) (cfg.cooldownSeconds * 1000) with hlt | hle
    · simp [canApply, h, hlt, not_le.mpr hlt]
    · simp [canApply, h, not_lt.mpr hle, hle]

/-- Witness for C5: immediately after a panic apply at time 0, calm passes `canApply`
at time 0 while focus does not, the default 15-second cooldown not having elapsed. -/
theorem canApply_panic_calm_bypass_witness :
    panicAppliedState.lastMode = some Mode.panic ∧
    (canApply panicAppliedState defaultConfig 0 Mode.calm false = true ∧
      (canApply panicAppliedState defaultConfig 0 Mode.focus false = true ↔
        defaultConfig.cooldownSeconds * 1000 ≤ 0 - panicAppliedState.lastAppliedAt)) :=
  ⟨rfl, canApply_panic_calm_bypass panicAppliedState defaultConfig 0 rfl⟩

/-- Claim C6: with a 15-second cooldown, a non-forced candidate that differs from the
last applied mode and is not the panic-to-calm pair is refused 10 seconds after the
last apply and accepted 16 seconds after it. -/
theorem canApply_cooldown_threshold (s : PersonalityState) (cfg : Config) (mode : Mode)
    (now1 now2 : Int)
    (hc : cfg.cooldownSeconds = 15)
    (hne : s.lastMode ≠ some mode)
    (hnp : ¬(s.lastMode = some Mode.panic ∧ mode = Mode.calm))
    (h1 : now1 - s.lastAppliedAt = 10000)
    (h2 : now2 - s.lastAppliedAt = 16000) :
    canApply s cfg now1 mode false = false ∧ canApply s cfg now2 mode false = true := by
  constructor
  · simp [canApply, hne, hnp, hc, h1]
  · simp [canApply, hne, hnp, hc, h2]

/-- State whose last applied mode is calm, applied at time 0. -/
def calmAppliedState : PersonalityState :=
  { lastEditAt := 0, editTimestamps := [], lastAppliedAt := 0, lastMode := some Mode.calm }

/-- Witness for C6: after a calm apply at time 0 under the default configuration, a
focus candidate is refused at 10 seconds and accepted at 16 seconds. -/
theorem canApply_cooldown_threshold_witness :
    defaultConfig.cooldownSeconds = 15 ∧
    calmAppliedState.lastMode ≠ some Mode.focus ∧
    ¬(calmAppliedState.lastMode = some Mode.panic ∧ Mode.focus = Mode.calm) ∧
    (10000 : Int) - calmAppliedState.lastAppliedAt = 10000 ∧
    (16000 : Int) - calmAppliedState.lastAppliedAt = 16000 ∧
    (canApply calmAppliedState defaultConfig 10000 Mode.focus false = false ∧
      canApply calmAppliedState defaultConfig 16000 Mode.focus false = true) :=
  ⟨by decide, by decide, by decide, by decide, by decide,
    canApply_cooldown_threshold calmAppliedState defaultConfig Mode.focus 10000 16000
      (by decide) (by decide) (by decide) (by decide) (by decide)⟩

/-- Claim C7: a non-forced candidate equal to the last applied mode is refused by
`canApply`, and since no `markApplied` runs in between, a second identical call on the
unchanged state is refused as well. -/
theorem canApply_idempotence (s : PersonalityState) (cfg : Config) (now : Int)
    (mode : Mode) (h : s.lastMode = some mode) :
    canApply s cfg now mode false = false ∧ canApply s cfg now mode false = false := by
  have hr : canApply s cfg now mode false = false := by
    simp [canApply, h]
  exact ⟨hr, hr⟩

/-- Witness for C7: a repeated calm candidate on a state whose applied mode is calm is
refused on both consecutive calls. -/
theorem canApply_idempotence_witness :
    calmAppliedState.lastMode = some Mode.calm ∧
    (canApply calmAppliedState defaultConfig 999999 Mode.calm false = false ∧
      canApply calmAppliedState defaultConfig 999999 Mode.calm false = false) :=
  ⟨rfl, canApply_idempotence calmAppliedState defaultConfig 999999 Mode.calm rfl⟩

/-- Claim C9: recording one edit per second at t = 0s, ..., 9s leaves ten entries in the
window when read at t = 9s; one further edit at t = 11s prunes entries below 1000 ms, so
the window becomes exactly the timestamps from 1s to 9s plus 11s, excluding the t = 0
entry. -/
theorem recordEdit_window_correct :
    (runEdits (initState 0)
        [0, 1000, 2000, 3000, 4000, 5000, 6000, 7000, 8000, 9000]).editTimestamps.length
      = 10 ∧
    (runEdits (initState 0)
        [0, 1000, 2000, 3000, 4000, 5000, 6000, 7000, 8000, 9000, 11000]).editTimestamps
      = [1000, 2000, 3000, 4000, 5000, 6000, 7000, 8000, 9000, 11000] := by
  constructor
  · rfl
  · rfl

/-- Counterexample to C4: after a single edit at t = 0, a tick read at t = 20000 (with
no intervening edit) still sees the entry 0, which is below now - 10000, because pruning
only happens inside `onEdit`; `computeMode` performs exactly such a read, and with a
burst threshold of 1 the stale entry makes it return focus instead of calm. -/
theorem windowInvariant_fails_on_tick_read :
    (onEdit (initState 0) 0).editTimestamps = [0] ∧
    ¬ windowInvariant (onEdit (initState 0) 0) 20000 ∧
    computeMode (onEdit (initState 0) 0)
      { defaultConfig with focusTypingBurstThreshold := 1 }
      { textDocuments := [], diagRegistry := [] } 20000 = Mode.focus := by
  refine ⟨rfl, ?_, rfl⟩
  intro h
  have h0 := h 0 (by decide)
  omega

/-- Claim C4 as amended: the window bound holds at the moment just after any `onEdit`
(where pruning runs), not at arbitrary later reads: after `onEdit` at time `now` on a
chronologically ordered window of timestamps not after `now`, every entry is at least
`now - 10000`, and the entries are still in chronological (insertion) order. -/
theorem onEdit_window_invariant (s : PersonalityState) (now : Int)
    (hsorted : List.Pairwise (fun a b => a ≤ b) s.editTimestamps)
    (hpast : ∀ t ∈ s.editTimestamps, t ≤ now) :
    windowInvariant (onEdit s now) now ∧
    List.Pairwise (fun a b => a ≤ b) (onEdit s now).editTimestamps := by
  constructor
  · intro t ht
    simp only [onEdit, List.mem_filter, decide_eq_true_eq] at ht
    exact ht.2
  · have happ : List.Pairwise (fun a b => a ≤ b) (s.editTimestamps ++ [now]) := by
      rw [List.pairwise_append]
      refine ⟨hsorted, List.pairwise_singleton _ _, ?_⟩
      intro a ha b hb
      rw [List.mem_singleton] at hb
      rw [hb]
      exact hpast a ha
    simpa only [onEdit] using happ.sublist (List.filter_sublist _)

/-- State with a two-entry chronological window, edits at 1 ms and 2 ms. -/
def smallWindowState : PersonalityState :=
  { lastEditAt := 2, editTimestamps := [1, 2], lastAppliedAt := 0, lastMode := none }

/-- Witness for the amended C4: an edit at t = 5 on a window holding 1 and 2 leaves a
window satisfying the 10-second bound at t = 5, still chronologically ordered. -/
theorem onEdit_window_invariant_witness :
    List.Pairwise (fun a b => a ≤ b) smallWindowState.editTimestamps ∧
    (∀ t ∈ smallWindowState.editTimestamps, t ≤ (5 : Int)) ∧
    (windowInvariant (onEdit smallWindowState 5) 5 ∧
      List.Pairwise (fun a b => a ≤ b) (onEdit smallWindowState 5).editTimestamps) :=
  ⟨by decide, by decide, onEdit_window_invariant smallWindowState 5 (by decide) (by decide)⟩

/-- Apply environment whose current workbench theme is already the default panic theme,
with a succeeding update call. -/
def samePanicThemeEnv : ApplyEnv :=
  { currentTheme := "Personality: Panic", updateOk := true }

/-- Counterexample to C3: a forced panic apply on the fresh state, with the workbench
theme already equal to the panic theme, performs no external update (`updated = false`,
`failed = false`) yet still calls `markApplied`, changing `lastMode` from none to panic. -/
theorem applyMode_marks_without_update :
    (applyMode Mode.panic (initState 0) true defaultConfig samePanicThemeEnv 0).updated
      = false ∧
    (applyMode Mode.panic (initState 0) true defaultConfig samePanicThemeEnv 0).failed
      = false ∧
    (initState 0).lastMode = none ∧
    (applyMode Mode.panic (initState 0) true defaultConfig samePanicThemeEnv 0).state.lastMode
      = some Mode.panic := by
  decide

/-- Claim C3 as amended: `applyMode` calls `markApplied` exactly when `canApply` passes
and the external update does not fail — if the update call fails, its rejection skips
`markApplied` and the state (`lastMode`, `lastAppliedAt`) is unchanged for a retry; but
when the update is skipped because the current theme already equals the target theme,
`markApplied` still runs. -/
theorem applyMode_markApplied_exactly_when (mode : Mode) (s : PersonalityState)
    (force : Bool) (cfg : Config) (env : ApplyEnv) (now : Int) :
    (applyMode mode s force cfg env now).state =
      if canApply s cfg now mode force = true ∧
          (applyMode mode s force cfg env now).failed = false
      then markApplied s mode now
      else s := by
  by_cases hca : canApply s cfg now mode force = false
  · simp [applyMode, hca]
  · have hca2 : canApply s cfg now mode force = true := by
      revert hca
      cases canApply s cfg now mode force <;> simp
    by_cases ht : env.currentTheme = themeForMode cfg mode
    · simp [applyMode, hca2, ht]
    · by_cases hu : env.updateOk
      · simp [applyMode, hca2, ht, hu]
      · simp [applyMode, hca2, ht, hu]

/-- Environment with one open document, uri 0, holding exactly one diagnostic, which is
therefore also the only entry of the registry. -/
def openDocOneDiagEnv : DiagEnv := { textDocuments := [0], diagRegistry := [(0, [0])] }

/-- Claim C1 fails on the code: with one open document carrying a single diagnostic,
`countAllDiagnostics` returns 2 — the open-document loop counts the diagnostic once and
the full-registry loop counts it again — while the spec total (each diagnostic counted
exactly once) is 1; fed into the mode decision with `panicErrorThreshold = 2`, the
double-counted value already triggers panic. -/
theorem countAllDiagnostics_double_counts :
    countAllDiagnostics openDocOneDiagEnv = 2 ∧
    specTotalDiagnostics openDocOneDiagEnv = 1 ∧
    computeMode (initState 0) { defaultConfig with panicErrorThreshold := 2 }
      openDocOneDiagEnv 0 = Mode.panic := by
  decide
